import Mathlib

/-!
Verification development for the fault-tolerant task-processing service.

The TypeScript sources are embedded shallowly:
* JavaScript numbers are modelled as rationals (all arithmetic performed by
  the embedded code paths is exact on the values they manipulate);
* `Math.random()` draws are passed as explicit parameters;
* the DynamoDB task table and the idempotency table are association lists,
  with conditional writes modelled by an explicit presence check;
* fallible operations return `Except`, paired with the (possibly unchanged)
  table so that "no write happened" is expressible.
-/

namespace FaultTolerant

/-- Task lifecycle states, from `TaskStatus` in src/types/index.ts. -/
inductive TaskStatus
  | pending
  | processing
  | completed
  | failed
  | deadLetter
deriving DecidableEq, Repr

/-- A task record, from `TaskRecord` in src/types/index.ts.  The opaque JSON
payload is modelled as a string; timestamps produced by `toISOString()` are
opaque strings, while the numeric `ttl` (epoch seconds) is an integer. -/
structure TaskRecord where
  taskId : String
  payload : String
  status : TaskStatus
  createdAt : String
  updatedAt : String
  ttl : Option ℤ := none
  retryCount : ℕ
  lastError : Option String := none
  completedAt : Option String := none
  failedAt : Option String := none
  failureDestiny : Option Bool := none
deriving DecidableEq, Repr

/-- The DynamoDB task table, keyed by `taskId`. -/
abbrev TaskTable := List (String × TaskRecord)

/-- Point read of the task table (`DynamoService.getTask`). -/
def getTask (table : TaskTable) (taskId : String) : Option TaskRecord :=
  (table.find? (fun p => p.1 == taskId)).map Prod.snd

/-- Replace the record stored under `taskId` (the effect of a DynamoDB
`UpdateCommand` on an existing item). -/
def setTask (table : TaskTable) (taskId : String) (record : TaskRecord) : TaskTable :=
  table.map (fun p => if p.1 == taskId then (taskId, record) else p)

/-- The two conditional-write failures surfaced by `DynamoService`:
`ConditionalCheckFailedException` on `attribute_not_exists(taskId)` is
re-thrown as "already exists", and on `attribute_exists(taskId)` as
"not found". -/
inductive DynamoError
  | alreadyExists (taskId : String)
  | notFound (taskId : String)
deriving DecidableEq, Repr

/-- `constants.DYNAMODB_TTL_DAYS` from src/config (30). -/
def DYNAMODB_TTL_DAYS : ℤ := 30

/-- The argument of `DynamoService.createTask`, i.e.
`Omit<TaskRecord, 'updatedAt'>`; the `ttl` field is omitted because
`createTask` always overwrites it. -/
structure CreateTaskInput where
  taskId : String
  payload : String
  status : TaskStatus
  createdAt : String
  retryCount : ℕ
  lastError : Option String := none
  completedAt : Option String := none
  failedAt : Option String := none
  failureDestiny : Option Bool := none
deriving DecidableEq, Repr

/-- `DynamoService.createTask`: a `PutCommand` with condition
`attribute_not_exists(taskId)`.  `nowIso` is `new Date().toISOString()` and
`nowEpochSeconds` is `Math.floor(Date.now() / 1000)`.  When the condition
fails the table is returned unchanged together with the error. -/
def createTask (table : TaskTable) (input : CreateTaskInput) (nowIso : String)
    (nowEpochSeconds : ℤ) : TaskTable × Except DynamoError TaskRecord :=
  let record : TaskRecord :=
    { taskId := input.taskId
      payload := input.payload
      status := input.status
      createdAt := input.createdAt
      updatedAt := nowIso
      ttl := some (nowEpochSeconds + DYNAMODB_TTL_DAYS * 24 * 60 * 60)
      retryCount := input.retryCount
      lastError := input.lastError
      completedAt := input.completedAt
      failedAt := input.failedAt
      failureDestiny := input.failureDestiny }
  match getTask table input.taskId with
  | some _ => (table, Except.error (DynamoError.alreadyExists input.taskId))
  | none => ((input.taskId, record) :: table, Except.ok record)

/-- The create step of `baseSubmitTaskHandler` (src/handlers/submitTask.ts):
it calls `createTask` with `status = PENDING` and `retryCount = 0`. -/
def submitCreateTask (table : TaskTable) (taskId payload : String)
    (failureDestiny : Bool) (nowIso : String) (nowEpochSeconds : ℤ) :
    TaskTable × Except DynamoError TaskRecord :=
  createTask table
    { taskId := taskId
      payload := payload
      status := TaskStatus.pending
      createdAt := nowIso
      retryCount := 0
      failureDestiny := some failureDestiny }
    nowIso nowEpochSeconds

/-- The optional `updates` argument of `DynamoService.updateTaskStatus`
(`Partial<Pick<TaskRecord, 'retryCount' | 'lastError' | 'completedAt' |
'failedAt'>>`); `none` models an `undefined` field. -/
structure UpdateFields where
  retryCount : Option ℕ := none
  lastError : Option String := none
  completedAt : Option String := none
  failedAt : Option String := none
deriving DecidableEq, Repr

/-- A field of the update expression: the clause `#f = :f` is pushed only
when `updates.f !== undefined`, so a missing field keeps the stored value. -/
def overrideField {α : Type} (update old : Option α) : Option α :=
  match update with
  | some v => some v
  | none => old

/-- `DynamoService.updateTaskStatus`: an `UpdateCommand` with condition
`attribute_exists(taskId)`.  It always sets `status` and `updatedAt`, and
additionally sets exactly those of `retryCount`, `lastError`, `completedAt`,
`failedAt` that were passed in `updates`.  On a missing task the table is
returned unchanged with a not-found error. -/
def updateTaskStatus (table : TaskTable) (taskId : String) (status : TaskStatus)
    (updates : UpdateFields) (nowIso : String) :
    TaskTable × Except DynamoError TaskRecord :=
  match getTask table taskId with
  | none => (table, Except.error (DynamoError.notFound taskId))
  | some old =>
    let updated : TaskRecord :=
      { old with
        status := status
        updatedAt := nowIso
        retryCount := updates.retryCount.getD old.retryCount
        lastError := overrideField updates.lastError old.lastError
        completedAt := overrideField updates.completedAt old.completedAt
        failedAt := overrideField updates.failedAt old.failedAt }
    (setTask table taskId updated, Except.ok updated)

/-- `RetryStrategyType` from src/types/index.ts: only the exponential
strategy exists. -/
inductive RetryStrategyType
  | exponential
deriving DecidableEq, Repr

/-- `RetryConfig` from src/types/index.ts.  Optional fields are `Option`;
JavaScript numbers are rationals. -/
structure RetryConfig where
  maxRetries : ℕ
  baseDelayMs : ℚ
  maxDelayMs : ℚ
  backoffMultiplier : ℚ
  jitterEnabled : Bool
  jitterMaxMs : Option ℚ := none
  strategy : RetryStrategyType
  useVisibilityTimeout : Option Bool := none
  visibilityTimeoutMultiplier : Option ℚ := none
deriving DecidableEq, Repr

/-- The module-level `retryConfig` constant of src/config. -/
def retryConfig : RetryConfig :=
  { maxRetries := 2
    baseDelayMs := 500
    maxDelayMs := 10000
    backoffMultiplier := 2
    jitterEnabled := true
    strategy := RetryStrategyType.exponential
    useVisibilityTimeout := some false
    visibilityTimeoutMultiplier := some (6 / 5) }

/-- JavaScript `v || d` on an optional number: `undefined` and `0` are both
falsy and fall back to the default. -/
def jsOrDefault (v : Option ℚ) (d : ℚ) : ℚ :=
  match v with
  | some x => if x = 0 then d else x
  | none => d

/-- `ExponentialBackoffStrategy.calculateDelay` (src/utils/backoffStrategies):
`baseDelay * multiplier^retryCount`, optionally pre-capped and scaled for the
visibility-timeout transport, finally capped at `maxDelayMs`. -/
def ExponentialBackoffStrategy.calculateDelay (retryCount : ℕ) (config : RetryConfig) : ℚ :=
  let delay := config.baseDelayMs * config.backoffMultiplier ^ retryCount
  let delay1 :=
    if config.useVisibilityTimeout.getD false then
      let visibilityMultiplier := jsOrDefault config.visibilityTimeoutMultiplier (3 / 2)
      let maxVisibilityDelay : ℚ := 180 * 1000 * (4 / 5)
      (min delay maxVisibilityDelay) * visibilityMultiplier
    else delay
  min delay1 config.maxDelayMs

/-- `calculateBackoffDelay` from src/config.  The `Math.random()` draw is the
explicit parameter `rand` (a value in `[0, 1)` at runtime). -/
def calculateBackoffDelay (retryCount : ℕ) (config : RetryConfig) (rand : ℚ) : ℚ :=
  let baseDelay := config.baseDelayMs * config.backoffMultiplier ^ retryCount
  let cappedDelay := min baseDelay config.maxDelayMs
  if config.jitterEnabled then
    let jitterMaxMs := config.jitterMaxMs.getD 500
    let jitter := rand * jitterMaxMs
    min (cappedDelay + jitter) config.maxDelayMs
  else
    cappedDelay

/-- `RetryStrategy.applyJitter` (src/utils/retryStrategy.ts): with jitter
disabled the delay passes through; otherwise a random amount up to
`jitterMaxMs ?? 500` is added and the sum is re-clamped to `maxDelayMs`. -/
def RetryStrategy.applyJitter (config : RetryConfig) (baseDelay : ℚ) (rand : ℚ) : ℚ :=
  if config.jitterEnabled then
    let jitterMaxMs := config.jitterMaxMs.getD 500
    let jitter := rand * jitterMaxMs
    min (baseDelay + jitter) config.maxDelayMs
  else
    baseDelay

/-- `RetryStrategy.calculateDelay` (src/utils/retryStrategy.ts):
`selectStrategy` always picks the exponential strategy, which the factory
registry contains, so the delay is the exponential delay with jitter applied.
The in-process attempt bookkeeping (`recordAttempt`) does not affect the
returned delay and is not modelled. -/
def RetryStrategy.calculateDelay (config : RetryConfig) (retryCount : ℕ) (rand : ℚ) : ℚ :=
  RetryStrategy.applyJitter config (ExponentialBackoffStrategy.calculateDelay retryCount config) rand

/-- `isRetryable` from src/config, generalised over the configuration it
closes over (the source reads the module constant `retryConfig`). -/
def isRetryableWith (config : RetryConfig) (retryCount : ℕ) : Bool :=
  retryCount < config.maxRetries

/-- `isRetryable` from src/config, applied to the module `retryConfig`. -/
def isRetryable (retryCount : ℕ) : Bool :=
  isRetryableWith retryConfig retryCount

/-- The shape of the error thrown by an attempt, as discriminated by
`processTaskMessage`: an explicit `RetryableError`, an explicit
`NonRetryableError`, or any other error. -/
inductive ErrorKind
  | retryableError
  | nonRetryableError
  | genericError
deriving DecidableEq, Repr

/-- The per-attempt retry decision of `processTaskMessage`
(src/handlers/processTask.ts line 200):
`error instanceof RetryableError ||
 (!(error instanceof NonRetryableError) && isRetryable(actualRetryCount))`. -/
def isRetryableFailure (config : RetryConfig) (err : ErrorKind) (actualRetryCount : ℕ) : Bool :=
  err == ErrorKind.retryableError ||
    (err != ErrorKind.nonRetryableError && isRetryableWith config actualRetryCount)

/-- Outcome of recording one attempt: retry with a computed backoff delay, or
terminal (the handler then transitions the task to `FAILED` with `lastError`
and `failedAt`, heading for the dead-letter queue). -/
inductive AttemptOutcome
  | retry (delayMs : ℚ)
  | terminal
deriving DecidableEq, Repr

/-- The retry-vs-terminal branch of `processTaskMessage`: when the failure is
retryable the next delay is `calculateBackoffDelay(actualRetryCount + 1)`,
otherwise the task is marked failed (terminal). -/
def recordAttemptOutcome (config : RetryConfig) (err : ErrorKind) (actualRetryCount : ℕ)
    (rand : ℚ) : AttemptOutcome :=
  if isRetryableFailure config err actualRetryCount then
    AttemptOutcome.retry (calculateBackoffDelay (actualRetryCount + 1) config rand)
  else
    AttemptOutcome.terminal

/-- JavaScript `String.prototype.toLowerCase` on the ASCII error messages the
service produces, as a character-wise map. -/
def lowerString (s : String) : String :=
  String.mk (s.data.map Char.toLower)

/-- Whether the first list is a prefix of the second (helper for substring
containment). -/
def startsWithChars : List Char → List Char → Bool
  | [], _ => true
  | _ :: _, [] => false
  | p :: ps, c :: cs => p == c && startsWithChars ps cs

/-- Whether `pat` occurs contiguously inside the second list. -/
def containsChars (pat : List Char) : List Char → Bool
  | [] => pat.isEmpty
  | c :: cs => startsWithChars pat (c :: cs) || containsChars pat cs

/-- JavaScript `s.includes(pat)`. -/
def jsIncludes (s pat : String) : Bool :=
  containsChars pat.data s.data

/-- Error categories produced by `CloudWatchService.classifyError`. -/
inductive ErrorCategory
  | validation
  | network
  | rateLimit
  | system
  | unknown
deriving DecidableEq, Repr

/-- Severities produced by `CloudWatchService.classifyError`. -/
inductive ErrorSeverity
  | low
  | medium
  | high
  | critical
deriving DecidableEq, Repr

/-- The `errorClassification` block of a DLQ log entry. -/
structure ErrorClassification where
  category : ErrorCategory
  severity : ErrorSeverity
  isRetryable : Bool
  suggestedAction : String
deriving DecidableEq, Repr

/-- `CloudWatchService.classifyError` (src/services/cloudWatchService.ts):
case-insensitive keyword rules tried in source order, first match wins. -/
def classifyError (errorMessage : String) (retryCount : ℕ) : ErrorClassification :=
  let message := lowerString errorMessage
  if jsIncludes message "validation" || jsIncludes message "invalid" ||
      jsIncludes message "malformed" then
    { category := ErrorCategory.validation
      severity := ErrorSeverity.medium
      isRetryable := false
      suggestedAction := "Review and fix input data validation" }
  else if jsIncludes message "network" || jsIncludes message "connection" ||
      jsIncludes message "timeout" then
    { category := ErrorCategory.network
      severity := if retryCount > 2 then ErrorSeverity.high else ErrorSeverity.medium
      isRetryable := true
      suggestedAction := "Check network connectivity and service availability" }
  else if jsIncludes message "throttl" || jsIncludes message "rate" ||
      jsIncludes message "limit" then
    { category := ErrorCategory.rateLimit
      severity := ErrorSeverity.medium
      isRetryable := true
      suggestedAction := "Implement exponential backoff or reduce request rate" }
  else if jsIncludes message "system" || jsIncludes message "internal" ||
      jsIncludes message "server" then
    { category := ErrorCategory.system
      severity := ErrorSeverity.high
      isRetryable := true
      suggestedAction := "Check system health and resource availability" }
  else
    { category := ErrorCategory.unknown
      severity := if retryCount > 1 then ErrorSeverity.high else ErrorSeverity.medium
      isRetryable := retryCount < 3
      suggestedAction := "Manual investigation required" }

/-- An API Gateway proxy result: status code, headers, JSON body.  Headers
are an association list; JavaScript object-spread updates are modelled by
`setHeader`. -/
structure HttpResponse where
  statusCode : ℤ
  headers : List (String × String)
  body : String
deriving DecidableEq, Repr

/-- Set a header key: override in place when present (as object spread
does), otherwise append. -/
def setHeader (headers : List (String × String)) (k v : String) : List (String × String) :=
  if headers.any (fun p => p.1 == k) then
    headers.map (fun p => if p.1 == k then (k, v) else p)
  else
    headers ++ [(k, v)]

/-- `IdempotencyRecord` from src/middleware/idempotency.ts. -/
structure IdempotencyRecord where
  id : String
  response : HttpResponse
  requestHash : String
  expiration : ℤ
  createdAt : String
deriving DecidableEq, Repr

/-- The idempotency DynamoDB table, keyed by `id`. -/
abbrev IdempotencyTable := List (String × IdempotencyRecord)

/-- Point read of the idempotency table (the `GetItemCommand` of the before
hook). -/
def getIdempotencyRecord (table : IdempotencyTable) (key : String) : Option IdempotencyRecord :=
  (table.find? (fun p => p.1 == key)).map Prod.snd

/-- The JSON body of the 422 conflict response built by the before hook. -/
def conflictBody (idempotencyKey : String) : String :=
  "\x7b\"error\":\"Idempotency key conflict\"," ++
    "\"message\":\"The same idempotency key was used with a different request payload\"," ++
    "\"idempotencyKey\":\"" ++ idempotencyKey ++ "\"\x7d"

/-- The 422 response returned when an idempotency key is reused with a
different request hash. -/
def conflictResponse (idempotencyKey : String) : HttpResponse :=
  { statusCode := 422
    headers := [("Content-Type", "application/json"), ("X-Idempotency-Key", idempotencyKey)]
    body := conflictBody idempotencyKey }

/-- Result of the before hook: either continue to the handler (carrying the
`request.internal` key/hash pair when a record is to be stored afterwards),
or short-circuit with a response. -/
inductive BeforeOutcome
  | proceed (internal : Option (String × String))
  | shortCircuit (response : HttpResponse)
deriving DecidableEq, Repr

/-- The before hook of `idempotencyMiddleware` (src/middleware/idempotency.ts
lines 54-137): no key means continue; an expired record means continue
(without arming the after hook); a live record with a different request hash
short-circuits with the 422 conflict; a live record with the same hash
short-circuits with the cached response whose headers are augmented with
`X-Idempotency-Key` and `X-Idempotency-Cached: true`; no record arms the
after hook with the key and hash.  (The catch-all around the table read,
which degrades a store failure to "continue", is an I/O path not
modelled.) -/
def idempotencyBefore (table : IdempotencyTable) (idempotencyKey : Option String)
    (requestHash : String) (nowMs : ℤ) : BeforeOutcome :=
  match idempotencyKey with
  | none => BeforeOutcome.proceed none
  | some key =>
    match getIdempotencyRecord table key with
    | some record =>
      if nowMs > record.expiration then
        BeforeOutcome.proceed none
      else if record.requestHash != requestHash then
        BeforeOutcome.shortCircuit (conflictResponse key)
      else
        BeforeOutcome.shortCircuit
          { record.response with
            headers := setHeader (setHeader record.response.headers "X-Idempotency-Key" key)
              "X-Idempotency-Cached" "true" }
    | none => BeforeOutcome.proceed (some (key, requestHash))

/-- The after hook of `idempotencyMiddleware` (src/middleware/idempotency.ts
lines 139-195): with the key/hash armed and a response present it issues a
`PutItemCommand` conditioned on `attribute_not_exists(id)`.  The record
marshalls the response as it is at this point; only after a successful write
is the `X-Idempotency-Key` header added to the outgoing response.  Losing the
conditional write (the record already exists) is swallowed: the table and the
response are left untouched and no error escapes the hook. -/
def idempotencyAfter (table : IdempotencyTable) (internal : Option (String × String))
    (response : Option HttpResponse) (nowMs : ℤ) (nowIso : String)
    (expirationMinutes : ℤ) : IdempotencyTable × Option HttpResponse :=
  match internal, response with
  | some (key, requestHash), some resp =>
    let expirationTime := nowMs + expirationMinutes * 60 * 1000
    let record : IdempotencyRecord :=
      { id := key
        response := resp
        requestHash := requestHash
        expiration := expirationTime
        createdAt := nowIso }
    match getIdempotencyRecord table key with
    | some _ => (table, some resp)
    | none => ((key, record) :: table, some { resp with headers := setHeader resp.headers "X-Idempotency-Key" key })
  | _, _ => (table, response)

/-- The slice of a `DLQLogEntry` consumed by `generateDLQAnalytics`; the ISO
`timestamp` string is modelled by its epoch-millisecond value (what
`new Date(entry.timestamp)` compares by), categories and severities by their
string names as used for the `Record<string, number>` keys. -/
structure DLQEntry where
  timestampMs : ℤ
  taskId : String
  category : String
  severity : String
  retryCount : ℕ
  payloadSize : ℕ
  lastError : String
deriving DecidableEq, Repr

/-- One step of the `reduce` that builds a `Record<string, number>` of
counts: increment the key in place, or add it with count 1. -/
def bumpCount (acc : List (String × ℕ)) (key : String) : List (String × ℕ) :=
  if acc.any (fun p => p.1 == key) then
    acc.map (fun p => if p.1 == key then (p.1, p.2 + 1) else p)
  else
    acc ++ [(key, 1)]

/-- Read a count from a built record, 0 when the key is absent. -/
def getCount (counts : List (String × ℕ)) (key : String) : ℕ :=
  ((counts.find? (fun p => p.1 == key)).map Prod.snd).getD 0

/-- Insert into a list already sorted by descending count, after all entries
with a count at least as large (preserving the original order of ties). -/
def insertCountedDesc (x : String × ℕ) : List (String × ℕ) → List (String × ℕ)
  | [] => [x]
  | y :: ys => if y.2 ≤ x.2 then x :: y :: ys else y :: insertCountedDesc x ys

/-- The stable descending-by-count sort performed by
`.sort(([, a], [, b]) => b - a)` (JavaScript array sort is stable); a stable
sort is determined by the comparator, so a stable insertion sort agrees with
the engine regardless of the algorithm it uses. -/
def sortCountsDesc : List (String × ℕ) → List (String × ℕ)
  | [] => []
  | x :: xs => insertCountedDesc x (sortCountsDesc xs)

/-- The report produced by `generateDLQAnalytics` (nested objects
flattened). -/
structure DLQAnalytics where
  windowStartMs : ℤ
  windowEndMs : ℤ
  durationMs : ℤ
  totalMessages : ℕ
  uniqueTasks : ℕ
  averageRetryCount : ℚ
  maxRetryCount : ℕ
  totalPayloadSize : ℕ
  averagePayloadSize : ℚ
  byCategory : List (String × ℕ)
  bySeverity : List (String × ℕ)
  byRetryCount : List (String × ℕ)
  topErrors : List (String × ℕ × ℚ)
  messagesPerHour : ℚ
deriving DecidableEq, Repr

/-- The window filter of `generateDLQAnalytics`:
`dlqEntries.filter(entry => new Date(entry.timestamp) >= windowStart)` with
`windowStart = now - timeWindowMs`. -/
def entriesInWindowOf (dlqEntries : List DLQEntry) (nowMs timeWindowMs : ℤ) : List DLQEntry :=
  dlqEntries.filter (fun entry => decide (nowMs - timeWindowMs ≤ entry.timestampMs))

/-- `CloudWatchService.generateDLQAnalytics` (src/services/cloudWatchService.ts
lines 509-592): filter to the window, then pure reductions.  `now` is the
wall clock at the call, passed explicitly. -/
def generateDLQAnalytics (dlqEntries : List DLQEntry) (timeWindowMs nowMs : ℤ) : DLQAnalytics :=
  let windowStart := nowMs - timeWindowMs
  let inWindow := entriesInWindowOf dlqEntries nowMs timeWindowMs
  let uniqueTasks := ((inWindow.map (fun e => e.taskId)).dedup).length
  let totalPayloadSize := (inWindow.map (fun e => e.payloadSize)).sum
  let retryCountSum := (inWindow.map (fun e => e.retryCount)).sum
  let maxRetryCount := (inWindow.map (fun e => e.retryCount)).foldl max 0
  let byCategory := inWindow.foldl (fun acc e => bumpCount acc e.category) []
  let bySeverity := inWindow.foldl (fun acc e => bumpCount acc e.severity) []
  let byRetryCount := inWindow.foldl (fun acc e => bumpCount acc (toString e.retryCount)) []
  let errorCounts := inWindow.foldl (fun acc e => bumpCount acc (e.lastError.take 100)) []
  let topErrors :=
    ((sortCountsDesc errorCounts).take 10).map
      (fun p => (p.1, p.2, ((p.2 : ℚ) / (inWindow.length : ℚ)) * 100))
  { windowStartMs := windowStart
    windowEndMs := nowMs
    durationMs := timeWindowMs
    totalMessages := inWindow.length
    uniqueTasks := uniqueTasks
    averageRetryCount :=
      if inWindow.length > 0 then (retryCountSum : ℚ) / (inWindow.length : ℚ) else 0
    maxRetryCount := maxRetryCount
    totalPayloadSize := totalPayloadSize
    averagePayloadSize :=
      if inWindow.length > 0 then (totalPayloadSize : ℚ) / (inWindow.length : ℚ) else 0
    byCategory := byCategory
    bySeverity := bySeverity
    byRetryCount := byRetryCount
    topErrors := topErrors
    messagesPerHour := ((inWindow.length : ℚ) / (timeWindowMs : ℚ)) * 3600000 }

/-- The configuration of the spec's exponential-backoff scenario:
base 1000 ms, multiplier 2, cap 30000 ms, jitter and visibility-timeout
integration disabled. -/
def exponentialScenarioConfig : RetryConfig :=
  { maxRetries := 10
    baseDelayMs := 1000
    maxDelayMs := 30000
    backoffMultiplier := 2
    jitterEnabled := false
    strategy := RetryStrategyType.exponential
    useVisibilityTimeout := some false }

/-- C1, counterexample: the claim says the decision grants a retry for every
`attemptIndex < maxRetries` and refuses for every `attemptIndex ≥ maxRetries`
regardless of which error occurred.  Against the repository `retryConfig`
(`maxRetries = 2`): a `NonRetryableError` at attempt 0 (< 2) is refused, and
a `RetryableError` at attempt 2 (≥ 2) is granted a retry, so the error kind
does matter in both directions. -/
theorem C1_counterexample :
    isRetryableWith retryConfig 0 = true ∧
    isRetryableFailure retryConfig ErrorKind.nonRetryableError 0 = false ∧
    isRetryableWith retryConfig 2 = false ∧
    isRetryableFailure retryConfig ErrorKind.retryableError 2 = true ∧
    recordAttemptOutcome retryConfig ErrorKind.nonRetryableError 0 0 = AttemptOutcome.terminal := by
  refine ⟨by decide, by decide, by decide, by decide, rfl⟩

/-- C1, amended: for every configuration, an explicit `NonRetryableError` is
always terminal, an explicit `RetryableError` is always retried, and only for
a generic error does the decision follow the attempt budget: retry granted
exactly when `attemptIndex < maxRetries` (with the next delay computed as
`calculateBackoffDelay(attemptIndex + 1)`), terminal exactly when
`attemptIndex ≥ maxRetries`. -/
theorem C1_retry_decision (config : RetryConfig) (n : ℕ) (rand : ℚ) :
    isRetryableFailure config ErrorKind.nonRetryableError n = false ∧
    isRetryableFailure config ErrorKind.retryableError n = true ∧
    (isRetryableFailure config ErrorKind.genericError n = true ↔ n < config.maxRetries) ∧
    recordAttemptOutcome config ErrorKind.nonRetryableError n rand = AttemptOutcome.terminal ∧
    (recordAttemptOutcome config ErrorKind.genericError n rand = AttemptOutcome.terminal ↔
      config.maxRetries ≤ n) ∧
    (n < config.maxRetries →
      recordAttemptOutcome config ErrorKind.genericError n rand =
        AttemptOutcome.retry (calculateBackoffDelay (n + 1) config rand)) := by
  refine ⟨rfl, rfl, ?_, rfl, ?_, ?_⟩
  · simp [isRetryableFailure, isRetryableWith]
  · by_cases h : n < config.maxRetries
    · simp [recordAttemptOutcome, isRetryableFailure, isRetryableWith, h]
    · simp [recordAttemptOutcome, isRetryableFailure, isRetryableWith, h]
      omega
  · intro h
    simp [recordAttemptOutcome, isRetryableFailure, isRetryableWith, h]

/-- C1, witness: at the repository configuration, a generic error on attempt
0 is granted a retry with the computed backoff delay. -/
theorem C1_retry_decision_witness :
    recordAttemptOutcome retryConfig ErrorKind.genericError 0 0 =
      AttemptOutcome.retry (calculateBackoffDelay 1 retryConfig 0) :=
  (C1_retry_decision retryConfig 0 0).2.2.2.2.2 (by decide)

/-- C2: creating a task twice under the same `taskId` succeeds exactly once.
Starting from any table without the id, the first call creates the record
with `status = PENDING` and `retryCount = 0`; the second call fails with the
already-exists error and returns the table unchanged (the conditional
`attribute_not_exists(taskId)` write never overwrites the stored record). -/
theorem C2_create_exactly_once (table : TaskTable) (taskId payload : String)
    (failureDestiny : Bool) (iso1 iso2 : String) (sec1 sec2 : ℤ)
    (habsent : getTask table taskId = none) :
    ∃ table1 rec,
      submitCreateTask table taskId payload failureDestiny iso1 sec1 = (table1, Except.ok rec) ∧
      rec.status = TaskStatus.pending ∧
      rec.retryCount = 0 ∧
      getTask table1 taskId = some rec ∧
      submitCreateTask table1 taskId payload failureDestiny iso2 sec2 =
        (table1, Except.error (DynamoError.alreadyExists taskId)) := by
  refine ⟨(taskId,
      { taskId := taskId, payload := payload, status := TaskStatus.pending,
        createdAt := iso1, updatedAt := iso1,
        ttl := some (sec1 + DYNAMODB_TTL_DAYS * 24 * 60 * 60), retryCount := 0,
        lastError := none, completedAt := none, failedAt := none,
        failureDestiny := some failureDestiny }) :: table,
    { taskId := taskId, payload := payload, status := TaskStatus.pending,
      createdAt := iso1, updatedAt := iso1,
      ttl := some (sec1 + DYNAMODB_TTL_DAYS * 24 * 60 * 60), retryCount := 0,
      lastError := none, completedAt := none, failedAt := none,
      failureDestiny := some failureDestiny }, ?_, rfl, rfl, ?_, ?_⟩
  · unfold submitCreateTask createTask
    simp only [habsent]
  · simp [getTask]
  · unfold submitCreateTask createTask
    simp [getTask]

/-- C2, witness: the double-create scenario at a concrete table and id. -/
theorem C2_create_exactly_once_witness :
    getTask ([] : TaskTable) "t1" = none ∧
    ∃ table1 rec,
      submitCreateTask [] "t1" "p" false "a" 0 = (table1, Except.ok rec) ∧
      rec.status = TaskStatus.pending ∧
      rec.retryCount = 0 ∧
      getTask table1 "t1" = some rec ∧
      submitCreateTask table1 "t1" "p" false "b" 7 =
        (table1, Except.error (DynamoError.alreadyExists "t1")) :=
  ⟨rfl, C2_create_exactly_once [] "t1" "p" false "a" "b" 0 7 rfl⟩

/-- C3, counterexample: the claim says a replay returns the cached response
identical and unchanged.  After a first submission stores its response
(statusCode 201, no headers), the replay returns a response that differs
from the stored one: the before hook adds the `X-Idempotency-Key` and
`X-Idempotency-Cached: true` headers. -/
theorem C3_counterexample :
    ∃ r, idempotencyBefore
        (idempotencyAfter [] (some ("k1", "h1"))
          (some { statusCode := 201, headers := [], body := "ok" }) 0 "t0" 60).1
        (some "k1") "h1" 1000 = BeforeOutcome.shortCircuit r ∧
      r ≠ { statusCode := 201, headers := [], body := "ok" } := by
  refine ⟨{ statusCode := 201,
            headers := [("X-Idempotency-Key", "k1"), ("X-Idempotency-Cached", "true")],
            body := "ok" }, by decide, by decide⟩

/-- C3, amended: after a first submission stores its response under
`(key, hash1)`, while the record is unexpired a replay with the same hash
short-circuits with the cached response, identical in status code and body
(headers augmented with the idempotency markers); a submission with a
different hash short-circuits with the 422 idempotency-conflict response;
once the record has expired the guard proceeds with normal processing. -/
theorem C3_idempotency_flow (table : IdempotencyTable) (key h1 h2 : String)
    (resp1 : HttpResponse) (now1 now2 : ℤ) (iso : String) (expMin : ℤ)
    (habsent : getIdempotencyRecord table key = none)
    (hlive : ¬ now1 + expMin * 60 * 1000 < now2)
    (hdiff : h2 ≠ h1) :
    ∃ table1,
      (idempotencyAfter table (some (key, h1)) (some resp1) now1 iso expMin).1 = table1 ∧
      (∃ r, idempotencyBefore table1 (some key) h1 now2 = BeforeOutcome.shortCircuit r ∧
        r.statusCode = resp1.statusCode ∧ r.body = resp1.body) ∧
      (idempotencyBefore table1 (some key) h2 now2 =
        BeforeOutcome.shortCircuit (conflictResponse key) ∧
        (conflictResponse key).statusCode = 422) ∧
      (∀ nowLate : ℤ, now1 + expMin * 60 * 1000 < nowLate →
        idempotencyBefore table1 (some key) h1 nowLate = BeforeOutcome.proceed none) := by
  refine ⟨(key, { id := key, response := resp1, requestHash := h1,
                  expiration := now1 + expMin * 60 * 1000, createdAt := iso }) :: table,
    ?_, ?_, ?_, ?_⟩
  · unfold idempotencyAfter
    simp only [habsent]
  · refine ⟨{ statusCode := resp1.statusCode,
              headers := setHeader (setHeader resp1.headers "X-Idempotency-Key" key)
                "X-Idempotency-Cached" "true",
              body := resp1.body }, ?_, rfl, rfl⟩
    unfold idempotencyBefore
    simp [getIdempotencyRecord, hlive]
  · refine ⟨?_, rfl⟩
    unfold idempotencyBefore
    simp [getIdempotencyRecord, hlive, Ne.symm hdiff]
  · intro nowLate hlate
    unfold idempotencyBefore
    simp [getIdempotencyRecord, hlate]

/-- C3, witness: the replay, conflict and expiry scenarios at concrete
inputs. -/
theorem C3_idempotency_flow_witness :
    ∃ table1,
      (idempotencyAfter [] (some ("k", "1"))
        (some { statusCode := 200, headers := [], body := "ok" }) 0 "t" 60).1 = table1 ∧
      (∃ r, idempotencyBefore table1 (some "k") "1" 1000 = BeforeOutcome.shortCircuit r ∧
        r.statusCode = 200 ∧ r.body = "ok") ∧
      (idempotencyBefore table1 (some "k") "2" 1000 =
        BeforeOutcome.shortCircuit (conflictResponse "k") ∧
        (conflictResponse "k").statusCode = 422) ∧
      (∀ nowLate : ℤ, 0 + 60 * 60 * 1000 < nowLate →
        idempotencyBefore table1 (some "k") "1" nowLate = BeforeOutcome.proceed none) :=
  C3_idempotency_flow [] "k" "1" "2" { statusCode := 200, headers := [], body := "ok" }
    0 1000 "t" 60 rfl (by decide) (by decide)

/-- C4: the spec scenario for the exponential strategy with base 1000,
multiplier 2, cap 30000, jitter and visibility integration disabled:
attempt 0 gives 1000, attempt 1 gives 2000, attempt 2 gives 4000, and
attempt 10 is capped at 30000 — both for the strategy class and for the
config-module helper (whose jitter draw is irrelevant with jitter off). -/
theorem C4_exponential_scenario :
    ExponentialBackoffStrategy.calculateDelay 0 exponentialScenarioConfig = 1000 ∧
    ExponentialBackoffStrategy.calculateDelay 1 exponentialScenarioConfig = 2000 ∧
    ExponentialBackoffStrategy.calculateDelay 2 exponentialScenarioConfig = 4000 ∧
    ExponentialBackoffStrategy.calculateDelay 10 exponentialScenarioConfig = 30000 ∧
    ∀ rand : ℚ,
      calculateBackoffDelay 0 exponentialScenarioConfig rand = 1000 ∧
      calculateBackoffDelay 1 exponentialScenarioConfig rand = 2000 ∧
      calculateBackoffDelay 2 exponentialScenarioConfig rand = 4000 ∧
      calculateBackoffDelay 10 exponentialScenarioConfig rand = 30000 := by
  refine ⟨?_, ?_, ?_, ?_, fun rand => ⟨?_, ?_, ?_, ?_⟩⟩ <;>
    · simp only [ExponentialBackoffStrategy.calculateDelay, calculateBackoffDelay,
        exponentialScenarioConfig, Option.getD]
      norm_num [min_def]

/-- C5: for every configuration, attempt number and jitter draw, the
computed delay never exceeds `maxDelayMs` — both in the config-module helper
and in the strategy composition with `applyJitter`, because the
jitter-augmented delay is re-clamped to the cap. -/
theorem C5_backoff_cap (config : RetryConfig) (retryCount : ℕ) (rand : ℚ) :
    calculateBackoffDelay retryCount config rand ≤ config.maxDelayMs ∧
    RetryStrategy.calculateDelay config retryCount rand ≤ config.maxDelayMs := by
  constructor
  · unfold calculateBackoffDelay
    split
    · exact min_le_right _ _
    · exact min_le_right _ _
  · unfold RetryStrategy.calculateDelay RetryStrategy.applyJitter
    split
    · exact min_le_right _ _
    · unfold ExponentialBackoffStrategy.calculateDelay
      exact min_le_right _ _

/-- C6: classification is the pure function `classifyError` of the message
and attempt count; the spec examples evaluate as claimed, and the keyword
order makes "internal timeout" NETWORK (the network rule is checked before
the system rule), not SYSTEM. -/
theorem C6_classification :
    classifyError "Connection timeout" 1 =
      { category := ErrorCategory.network
        severity := ErrorSeverity.medium
        isRetryable := true
        suggestedAction := "Check network connectivity and service availability" } ∧
    classifyError "Connection timeout" 3 =
      { category := ErrorCategory.network
        severity := ErrorSeverity.high
        isRetryable := true
        suggestedAction := "Check network connectivity and service availability" } ∧
    classifyError "invalid payload" 0 =
      { category := ErrorCategory.validation
        severity := ErrorSeverity.medium
        isRetryable := false
        suggestedAction := "Review and fix input data validation" } ∧
    (classifyError "internal timeout" 0).category = ErrorCategory.network ∧
    (classifyError "internal timeout" 0).category ≠ ErrorCategory.system := by
  refine ⟨by decide, by decide, by decide, by decide, by decide⟩

/-- C7, counterexample: the claim says setting `Completed` requires
`completedAt` and setting `Failed` requires `lastError` and `failedAt`.
The operation enforces no such requirement: on an existing task it accepts
`COMPLETED` with no `completedAt` and `FAILED` with neither `lastError` nor
`failedAt`, succeeding and leaving those fields unset. -/
theorem C7_counterexample :
    (∃ rec, (updateTaskStatus
        [("t1", { taskId := "t1", payload := "p", status := TaskStatus.pending,
                  createdAt := "c", updatedAt := "c", retryCount := 0 })]
        "t1" TaskStatus.completed {} "u").2 = Except.ok rec ∧
      rec.status = TaskStatus.completed ∧ rec.completedAt = none) ∧
    (∃ rec, (updateTaskStatus
        [("t1", { taskId := "t1", payload := "p", status := TaskStatus.pending,
                  createdAt := "c", updatedAt := "c", retryCount := 0 })]
        "t1" TaskStatus.failed {} "u").2 = Except.ok rec ∧
      rec.status = TaskStatus.failed ∧ rec.lastError = none ∧ rec.failedAt = none) := by
  constructor
  · exact ⟨{ taskId := "t1", payload := "p", status := TaskStatus.completed,
             createdAt := "c", updatedAt := "u", retryCount := 0 }, rfl, rfl, rfl⟩
  · exact ⟨{ taskId := "t1", payload := "p", status := TaskStatus.failed,
             createdAt := "c", updatedAt := "u", retryCount := 0 }, rfl, rfl, rfl, rfl⟩

/-- C7, amended: a transition against a missing task fails with the
not-found error and writes nothing; on success `updatedAt` is always set to
the call time and the new status is stored; each of `completedAt`,
`lastError`, `failedAt` is taken from the caller when passed and otherwise
left at its stored value — the operation never invents a missing field, but
it also does not reject a terminal status whose companion fields are
absent. -/
theorem C7_transition (table : TaskTable) (taskId : String) (status : TaskStatus)
    (updates : UpdateFields) (nowIso : String) :
    (getTask table taskId = none →
      updateTaskStatus table taskId status updates nowIso =
        (table, Except.error (DynamoError.notFound taskId))) ∧
    (∀ old, getTask table taskId = some old →
      ∃ rec, (updateTaskStatus table taskId status updates nowIso).2 = Except.ok rec ∧
        rec.status = status ∧
        rec.updatedAt = nowIso ∧
        (updates.completedAt = none → rec.completedAt = old.completedAt) ∧
        (∀ v, updates.completedAt = some v → rec.completedAt = some v) ∧
        (updates.lastError = none → rec.lastError = old.lastError) ∧
        (∀ v, updates.lastError = some v → rec.lastError = some v) ∧
        (updates.failedAt = none → rec.failedAt = old.failedAt) ∧
        (∀ v, updates.failedAt = some v → rec.failedAt = some v)) := by
  constructor
  · intro h
    unfold updateTaskStatus
    simp only [h]
  · intro old h
    refine ⟨{ old with
                status := status, updatedAt := nowIso,
                retryCount := updates.retryCount.getD old.retryCount,
                lastError := overrideField updates.lastError old.lastError,
                completedAt := overrideField updates.completedAt old.completedAt,
                failedAt := overrideField updates.failedAt old.failedAt },
      ?_, rfl, rfl, ?_, ?_, ?_, ?_, ?_, ?_⟩
    · unfold updateTaskStatus
      simp only [h]
    · intro hn
      simp [overrideField, hn]
    · intro v hv
      simp [overrideField, hv]
    · intro hn
      simp [overrideField, hn]
    · intro v hv
      simp [overrideField, hv]
    · intro hn
      simp [overrideField, hn]
    · intro v hv
      simp [overrideField, hv]

/-- C7, witness: the not-found case on an empty table, and a successful
transition that preserves the stored companion fields. -/
theorem C7_transition_witness :
    updateTaskStatus [] "t1" TaskStatus.processing {} "u" =
      ([], Except.error (DynamoError.notFound "t1")) ∧
    (∃ rec, (updateTaskStatus
        [("t1", { taskId := "t1", payload := "p", status := TaskStatus.pending,
                  createdAt := "c", updatedAt := "c", retryCount := 0,
                  lastError := some "e0", completedAt := some "cA",
                  failedAt := some "fA" })]
        "t1" TaskStatus.processing {} "u").2 = Except.ok rec ∧
      rec.status = TaskStatus.processing ∧
      rec.updatedAt = "u" ∧
      (({} : UpdateFields).completedAt = none → rec.completedAt = some "cA") ∧
      (∀ v, ({} : UpdateFields).completedAt = some v → rec.completedAt = some v) ∧
      (({} : UpdateFields).lastError = none → rec.lastError = some "e0") ∧
      (∀ v, ({} : UpdateFields).lastError = some v → rec.lastError = some v) ∧
      (({} : UpdateFields).failedAt = none → rec.failedAt = some "fA") ∧
      (∀ v, ({} : UpdateFields).failedAt = some v → rec.failedAt = some v)) :=
  ⟨(C7_transition [] "t1" TaskStatus.processing {} "u").1 rfl,
   (C7_transition
      [("t1", { taskId := "t1", payload := "p", status := TaskStatus.pending,
                createdAt := "c", updatedAt := "c", retryCount := 0,
                lastError := some "e0", completedAt := some "cA",
                failedAt := some "fA" })]
      "t1" TaskStatus.processing {} "u").2
    { taskId := "t1", payload := "p", status := TaskStatus.pending,
      createdAt := "c", updatedAt := "c", retryCount := 0,
      lastError := some "e0", completedAt := some "cA", failedAt := some "fA" }
    (by decide)⟩

/-- C8: when the idempotency record already exists (the conditional
create-if-absent write loses the race), the after hook is an exact no-op:
the table is unchanged (the winner's record stays authoritative), the
caller's response is returned untouched, and no error is surfaced — the
hook's codomain carries no error at all on this path. -/
theorem C8_store_race_noop (table : IdempotencyTable) (key requestHash : String)
    (resp : HttpResponse) (nowMs : ℤ) (nowIso : String) (expMin : ℤ)
    (existing : IdempotencyRecord)
    (hpresent : getIdempotencyRecord table key = some existing) :
    idempotencyAfter table (some (key, requestHash)) (some resp) nowMs nowIso expMin =
      (table, some resp) ∧
    getIdempotencyRecord
        (idempotencyAfter table (some (key, requestHash)) (some resp) nowMs nowIso expMin).1
        key = some existing := by
  have h1 : idempotencyAfter table (some (key, requestHash)) (some resp) nowMs nowIso expMin =
      (table, some resp) := by
    unfold idempotencyAfter
    simp only [hpresent]
  exact ⟨h1, by rw [h1]; exact hpresent⟩

/-- C8, witness: a concrete lost race leaves the winner's record and the
loser's response untouched. -/
theorem C8_store_race_noop_witness :
    idempotencyAfter
        [("k", { id := "k", response := { statusCode := 200, headers := [], body := "b0" },
                 requestHash := "h0", expiration := 99, createdAt := "c" })]
        (some ("k", "h1")) (some { statusCode := 201, headers := [], body := "b1" }) 5 "t" 60 =
      ([("k", { id := "k", response := { statusCode := 200, headers := [], body := "b0" },
                requestHash := "h0", expiration := 99, createdAt := "c" })],
        some { statusCode := 201, headers := [], body := "b1" }) ∧
    getIdempotencyRecord
        (idempotencyAfter
          [("k", { id := "k", response := { statusCode := 200, headers := [], body := "b0" },
                   requestHash := "h0", expiration := 99, createdAt := "c" })]
          (some ("k", "h1")) (some { statusCode := 201, headers := [], body := "b1" }) 5 "t" 60).1
        "k" =
      some { id := "k", response := { statusCode := 200, headers := [], body := "b0" },
             requestHash := "h0", expiration := 99, createdAt := "c" } :=
  C8_store_race_noop
    [("k", { id := "k", response := { statusCode := 200, headers := [], body := "b0" },
             requestHash := "h0", expiration := 99, createdAt := "c" })]
    "k" "h1" { statusCode := 201, headers := [], body := "b1" } 5 "t" 60
    { id := "k", response := { statusCode := 200, headers := [], body := "b0" },
      requestHash := "h0", expiration := 99, createdAt := "c" }
    (by decide)

/-- C9, counterexample: the claim says every entry whose timestamp lies
outside the window is excluded from all statistics.  The window is
`[now - timeWindowMs, now]`, yet an entry time-stamped after the window end
(`now`) passes the filter (which only checks the lower bound) and is counted
in `totalMessages` and `byCategory`. -/
theorem C9_counterexample :
    (7200000 : ℤ) < 7201000 ∧
    (generateDLQAnalytics
      [⟨7201000, "t", "NETWORK", "HIGH", 1, 10, "e"⟩] 3600000 7200000).windowEndMs = 7200000 ∧
    (generateDLQAnalytics
      [⟨7201000, "t", "NETWORK", "HIGH", 1, 10, "e"⟩] 3600000 7200000).totalMessages = 1 ∧
    getCount (generateDLQAnalytics
      [⟨7201000, "t", "NETWORK", "HIGH", 1, 10, "e"⟩] 3600000 7200000).byCategory "NETWORK" = 1 := by
  refine ⟨by decide, by decide, by decide, by decide⟩

/-- C9, amended: the aggregation is a pure function of the entries at or
after the window start — restricting the input to those entries changes no
statistic (so entries before the window start are excluded from all of them,
while entries after the window end are kept), and the aggregation is
idempotent for a fixed batch and window; on the spec batch with categories
NETWORK, NETWORK, VALIDATION inside the window it reports
`byCategory = (NETWORK 2, VALIDATION 1)` and `totalMessages = 3`. -/
theorem C9_analytics_window (dlqEntries : List DLQEntry) (timeWindowMs nowMs : ℤ) :
    generateDLQAnalytics (entriesInWindowOf dlqEntries nowMs timeWindowMs) timeWindowMs nowMs =
      generateDLQAnalytics dlqEntries timeWindowMs nowMs ∧
    getCount (generateDLQAnalytics
      [⟨7199000, "a", "NETWORK", "HIGH", 1, 10, "e1"⟩,
       ⟨7198000, "b", "NETWORK", "HIGH", 2, 10, "e2"⟩,
       ⟨7197000, "c", "VALIDATION", "MEDIUM", 0, 10, "e3"⟩] 3600000 7200000).byCategory
      "NETWORK" = 2 ∧
    getCount (generateDLQAnalytics
      [⟨7199000, "a", "NETWORK", "HIGH", 1, 10, "e1"⟩,
       ⟨7198000, "b", "NETWORK", "HIGH", 2, 10, "e2"⟩,
       ⟨7197000, "c", "VALIDATION", "MEDIUM", 0, 10, "e3"⟩] 3600000 7200000).byCategory
      "VALIDATION" = 1 ∧
    (generateDLQAnalytics
      [⟨7199000, "a", "NETWORK", "HIGH", 1, 10, "e1"⟩,
       ⟨7198000, "b", "NETWORK", "HIGH", 2, 10, "e2"⟩,
       ⟨7197000, "c", "VALIDATION", "MEDIUM", 0, 10, "e3"⟩] 3600000 7200000).totalMessages = 3 := by
  have hidem : entriesInWindowOf (entriesInWindowOf dlqEntries nowMs timeWindowMs)
      nowMs timeWindowMs = entriesInWindowOf dlqEntries nowMs timeWindowMs := by
    unfold entriesInWindowOf
    rw [List.filter_filter]
    simp
  refine ⟨?_, by decide, by decide, by decide⟩
  unfold generateDLQAnalytics
  rw [hidem]

/-- C10: every record written by `createTask` carries
`ttl = creation epoch seconds + DYNAMODB_TTL_DAYS (30) days`, and a
successful `updateTaskStatus` leaves the stored `ttl` unchanged (its update
expression never touches the attribute). -/
theorem C10_ttl (table : TaskTable) (input : CreateTaskInput) (nowIso : String)
    (nowEpochSeconds : ℤ) (taskId : String) (status : TaskStatus)
    (updates : UpdateFields) (uIso : String) (old : TaskRecord) :
    (getTask table input.taskId = none →
      ∃ rec, (createTask table input nowIso nowEpochSeconds).2 = Except.ok rec ∧
        rec.ttl = some (nowEpochSeconds + DYNAMODB_TTL_DAYS * 24 * 60 * 60)) ∧
    (getTask table taskId = some old →
      ∃ rec, (updateTaskStatus table taskId status updates uIso).2 = Except.ok rec ∧
        rec.ttl = old.ttl) := by
  constructor
  · intro h
    refine ⟨{ taskId := input.taskId, payload := input.payload, status := input.status,
               createdAt := input.createdAt, updatedAt := nowIso,
               ttl := some (nowEpochSeconds + DYNAMODB_TTL_DAYS * 24 * 60 * 60),
               retryCount := input.retryCount, lastError := input.lastError,
               completedAt := input.completedAt, failedAt := input.failedAt,
               failureDestiny := input.failureDestiny }, ?_, rfl⟩
    unfold createTask
    simp only [h]
  · intro h
    refine ⟨{ old with
                status := status, updatedAt := uIso,
                retryCount := updates.retryCount.getD old.retryCount,
                lastError := overrideField updates.lastError old.lastError,
                completedAt := overrideField updates.completedAt old.completedAt,
                failedAt := overrideField updates.failedAt old.failedAt }, ?_, rfl⟩
    unfold updateTaskStatus
    simp only [h]

/-- C10, witness: a concrete creation carrying the 30-day ttl and a
transition that preserves a stored ttl. -/
theorem C10_ttl_witness :
    (∃ rec, (createTask []
        { taskId := "t1", payload := "p", status := TaskStatus.pending,
          createdAt := "c", retryCount := 0 } "c" 1000).2 = Except.ok rec ∧
      rec.ttl = some (1000 + DYNAMODB_TTL_DAYS * 24 * 60 * 60)) ∧
    (∃ rec, (updateTaskStatus
        [("t1", { taskId := "t1", payload := "p", status := TaskStatus.pending,
                  createdAt := "c", updatedAt := "c", ttl := some 42,
                  retryCount := 0 })]
        "t1" TaskStatus.completed {} "u").2 = Except.ok rec ∧
      rec.ttl = some 42) :=
  ⟨(C10_ttl []
      { taskId := "t1", payload := "p", status := TaskStatus.pending,
        createdAt := "c", retryCount := 0 } "c" 1000 "t1" TaskStatus.completed {} "u"
      { taskId := "t1", payload := "p", status := TaskStatus.pending,
        createdAt := "c", updatedAt := "c", ttl := some 42, retryCount := 0 }).1 rfl,
   (C10_ttl
      [("t1", { taskId := "t1", payload := "p", status := TaskStatus.pending,
                createdAt := "c", updatedAt := "c", ttl := some 42, retryCount := 0 })]
      { taskId := "t1", payload := "p", status := TaskStatus.pending,
        createdAt := "c", retryCount := 0 } "c" 1000 "t1" TaskStatus.completed {} "u"
      { taskId := "t1", payload := "p", status := TaskStatus.pending,
        createdAt := "c", updatedAt := "c", ttl := some 42, retryCount := 0 }).2
    (by decide)⟩

end FaultTolerant
